import Mathlib

/-
Verification development for the toolkit repository.

The Python sources under src/ are shallowly embedded as Lean definitions:

* src/services/cloud_storage.py        : storage root resolution, local save,
                                         upload_file, provider selection
* src/routes/v1/storage/download.py    : download_file
* src/routes/v1/toolkit/job_status.py  : get_job_status
* src/routes/v1/image/convert/image_to_video.py : force_queue_task and its
                                         task_wrapper (job-record writes)

Filesystem and environment state are passed explicitly as functions; JSON
documents are modelled by the inductive type JVal below, with numbers as
rationals.
-/

namespace Toolkit

/-- JSON-like values as stored in job records and HTTP payloads.
Numbers are modelled as rationals (Python does not distinguish them
in the places the claims touch). -/
inductive JVal where
  | null : JVal
  | bool : Bool → JVal
  | num : ℚ → JVal
  | str : String → JVal
  | obj : List (String × JVal) → JVal
  | arr : List JVal → JVal

/-- Python dict .get on a JSON object: first binding of the key, none
when the key is absent or the value is not an object. -/
def JVal.getKey : JVal → String → Option JVal
  | .obj fs, k => fs.lookup k
  | _, _ => none

/-- Python truthiness of a JSON value (bool(v)). -/
def JVal.truthy : JVal → Bool
  | .null => false
  | .bool b => b
  | .num q => q != 0
  | .str s => s != ""
  | .obj fs => !fs.isEmpty
  | .arr es => !es.isEmpty

/-- Assignment d[k] = v on an association list: replaces the binding in
place when the key exists (Python dicts keep insertion order), appends
at the end otherwise. -/
def setAssoc : List (String × JVal) → String → JVal → List (String × JVal)
  | [], k, v => [(k, v)]
  | (k0, v0) :: rest, k, v =>
    if k0 = k then (k, v) :: rest else (k0, v0) :: setAssoc rest k v

/-- Assignment d[k] = v on a JSON object; identity on non-objects. -/
def JVal.setKey : JVal → String → JVal → JVal
  | .obj fs, k, v => .obj (setAssoc fs k v)
  | w, _, _ => w

mutual

/-- Python repr of a JSON value (string escaping omitted: no input in this
development needs it). -/
def pyRepr : JVal → String
  | .null => "None"
  | .bool true => "True"
  | .bool false => "False"
  | .num q => toString q
  | .str s => "\x27" ++ s ++ "\x27"
  | .obj fs => "\x7b" ++ pyReprFields fs ++ "\x7d"
  | .arr es => "[" ++ pyReprElems es ++ "]"

def pyReprFields : List (String × JVal) → String
  | [] => ""
  | [(k, v)] => "\x27" ++ k ++ "\x27: " ++ pyRepr v
  | (k, v) :: rest => "\x27" ++ k ++ "\x27: " ++ pyRepr v ++ ", " ++ pyReprFields rest

def pyReprElems : List JVal → String
  | [] => ""
  | [v] => pyRepr v
  | v :: rest => pyRepr v ++ ", " ++ pyReprElems rest

end

/-- Python str of a JSON value, as used by f-string interpolation. -/
def pyStr : JVal → String
  | .str s => s
  | v => pyRepr v

/-- Python substring membership test: needle in hay. -/
def pyContains (hay needle : String) : Bool :=
  decide (1 < (hay.splitOn needle).length)

/-- Python truthiness of an os.getenv result: set and non-empty. -/
def truthyOpt : Option String → Bool
  | some s => s != ""
  | none => false

/-- os.getenv(k, d): the default is used only when the variable is unset,
not when it is set to the empty string. -/
def getenvD (env : String → Option String) (k d : String) : String :=
  match env k with
  | some s => s
  | none => d

/-- Pointwise update of an environment, used to state independence of a
result from a given variable. -/
def envSet (env : String → Option String) (k : String) (v : Option String) :
    String → Option String :=
  fun k0 => if k0 = k then v else env k0

/-- os.path.join for two components: an absolute second component discards
the first; otherwise a separator is inserted unless one is already there. -/
def joinPath (a b : String) : String :=
  if b.startsWith "/" then b
  else if a = "" || a.endsWith "/" then a ++ b
  else a ++ "/" ++ b

/-- os.path.basename: the part after the last slash. -/
def basename (p : String) : String :=
  ((p.splitOn "/").getLast?).getD ""

/-- os.path.splitext: split at the last dot, provided a non-dot character
precedes it in the name; otherwise the extension is empty. -/
def splitext (s : String) : String × String :=
  match (s.splitOn ".").reverse with
  | [] => (s, "")
  | [_] => (s, "")
  | ext :: restRev =>
    let nm := String.intercalate "." restRev.reverse
    if nm.all (fun c => c = '.') then (s, "") else (nm, "." ++ ext)

/-! ### Storage root resolution

The following block of src/services/cloud_storage.py (save_file_locally)
appears verbatim in src/routes/v1/storage/download.py (download_file and
list_files): SAVE_LOCATION when set non-empty, otherwise the Docker volume
mount when present and writable, otherwise the app directory. pathExists
and writable model os.path.exists and os.access(-, os.W_OK) on the current
filesystem state. -/

def fallbackDir (pathExists writable : String → Bool) : String :=
  if pathExists "/var/www/html/storage/app" && writable "/var/www/html/storage/app" then
    "/var/www/html/storage/app"
  else
    "/app/storage"

def resolve_storage_dir (env : String → Option String)
    (pathExists writable : String → Bool) : String :=
  match env "SAVE_LOCATION" with
  | some s => if s != "" then s else fallbackDir pathExists writable
  | none => fallbackDir pathExists writable

/-- Result of the download endpoint: a JSON error body with an HTTP code,
or a served file (path, download name, mime type). -/
inductive DownloadResult where
  | errorJson : JVal → Nat → DownloadResult
  | fileResponse : String → String → String → DownloadResult

/-- The mime type served for a path: mimetypes.guess_type with the
octet-stream fallback for a falsy result. -/
def resolvedMime (guessMime : String → Option String) (p : String) : String :=
  match guessMime p with
  | some m => if m != "" then m else "application/octet-stream"
  | none => "application/octet-stream"

/-- download_file from src/routes/v1/storage/download.py. unquote models
urllib.parse.unquote, guessMime models mimetypes.guess_type. -/
def download_file (env : String → Option String)
    (pathExists writable isfile : String → Bool)
    (guessMime : String → Option String) (unquote : String → String)
    (filename : String) : DownloadResult :=
  let decoded_filename := unquote filename
  let storage_dir := resolve_storage_dir env pathExists writable
  let file_path := joinPath storage_dir decoded_filename
  if !(pathExists file_path) then
    .errorJson (.obj [("error", .str "File not found")]) 404
  else if !(isfile file_path) then
    .errorJson (.obj [("error", .str "Invalid file path")]) 400
  else
    .fileResponse file_path decoded_filename (resolvedMime guessMime file_path)

/-- save_file_locally from src/services/cloud_storage.py: resolves the
storage directory (unless one is passed), forms a unique file name from
the base name, a timestamp and the extension, and returns the destination
path. The directory creation and the file copy are side effects outside
the model; timestamp stands for datetime.now().strftime("%Y%m%d_%H%M%S"). -/
def save_file_locally (env : String → Option String)
    (pathExists writable : String → Bool)
    (file_path : String) (local_storage_dir : Option String)
    (timestamp : String) : String :=
  let dir :=
    match local_storage_dir with
    | some d => d
    | none => resolve_storage_dir env pathExists writable
  let filename := basename file_path
  let ne := splitext filename
  let unique_filename := ne.1 ++ "_" ++ timestamp ++ ne.2
  joinPath dir unique_filename

/-- upload_file from src/services/cloud_storage.py: saves the file locally
and returns a local download URL; no cloud provider is consulted. -/
def upload_file (env : String → Option String)
    (pathExists writable : String → Bool)
    (file_path timestamp : String) : String :=
  let saved_path := save_file_locally env pathExists writable file_path none timestamp
  let filename := basename saved_path
  let base_url := getenvD env "API_BASE_URL" "http://localhost:8080"
  base_url ++ "/v1/storage/download/" ++ filename

/-! ### Cloud storage provider selection -/

/-- The two provider classes of src/services/cloud_storage.py, with the
configuration their constructors read from the environment. -/
inductive StorageProvider where
  | s3 : String → String → String → String → String → StorageProvider
  | gcp : String → StorageProvider

def StorageProvider.isS3 : StorageProvider → Bool
  | .s3 _ _ _ _ _ => true
  | .gcp _ => false

/-- Hostname of a URL as urllib.parse.urlparse(u).hostname: the part between
the scheme separator and the first slash, lower-cased. Port and userinfo
handling is omitted (no input in this development carries them). -/
def urlHostname (u : String) : String :=
  let rest :=
    match u.splitOn "://" with
    | _ :: r :: _ => r
    | _ => ""
  (((rest.splitOn "/").headD "").toLower)

/-- Constructor of S3CompatibleProvider: reads the S3 environment variables
and, for a Digital Ocean endpoint with a missing bucket or region, extracts
them from the endpoint hostname. A missing second hostname part raises
IndexError in Python, which the constructor swallows after the bucket was
already assigned; the getD below models exactly that. -/
def S3CompatibleProvider.construct (env : String → Option String) : StorageProvider :=
  let endpoint_url := (env "S3_ENDPOINT_URL").getD ""
  let access_key := (env "S3_ACCESS_KEY").getD ""
  let secret_key := (env "S3_SECRET_KEY").getD ""
  let bucket_name := (env "S3_BUCKET_NAME").getD ""
  let region := (env "S3_REGION").getD ""
  if endpoint_url != "" && pyContains endpoint_url.toLower "digitalocean"
      && (bucket_name == "" || region == "") then
    let hostname_parts := (urlHostname endpoint_url).splitOn "."
    let bucket2 := if bucket_name == "" then hostname_parts.headD "" else bucket_name
    let region2 := if region == "" then (hostname_parts.get? 1).getD region else region
    .s3 endpoint_url access_key secret_key bucket2 region2
  else
    .s3 endpoint_url access_key secret_key bucket_name region

/-- Modelled from the spec: config.validate_env_vars (file config.py, not
under src/). The spec treats provider selection as simple branching over
validated configuration and lists no configuration-validation failure in
its error taxonomy, so validation is modelled as always succeeding. -/
def validate_env_vars (_provider : String) : Except String Unit := .ok ()

/-- get_storage_provider from src/services/cloud_storage.py: S3 when
S3_ENDPOINT_URL is truthy, else GCP when GCP_BUCKET_NAME is truthy, else
ValueError. -/
def get_storage_provider (env : String → Option String) :
    Except String StorageProvider :=
  if truthyOpt (env "S3_ENDPOINT_URL") then
    let check :=
      if pyContains ((env "S3_ENDPOINT_URL").getD "").toLower "digitalocean" then
        validate_env_vars "S3_DO"
      else
        validate_env_vars "S3"
    match check with
    | .ok _ => .ok (S3CompatibleProvider.construct env)
    | .error e => .error e
  else if truthyOpt (env "GCP_BUCKET_NAME") then
    match validate_env_vars "GCP" with
    | .ok _ => .ok (.gcp ((env "GCP_BUCKET_NAME").getD ""))
    | .error e => .error e
  else
    .error "No cloud storage settings provided."

/-! ### Job intake and worker execution

src/routes/v1/image/convert/image_to_video.py: force_queue_task wraps the
route function; it writes a queued record, enqueues a task wrapper, and the
wrapper writes running and then done or error records. log_job_status (from
app_utils, outside src/) persists one record per call; the model collects
the dictionaries passed to it, in order. -/

/-- Result of invoking the queued task function f: either the
(body, endpoint, status_code) triple it returns, or the message of the
exception it raised. -/
inductive TaskOutcome where
  | ok : JVal → String → ℚ → TaskOutcome
  | exn : String → TaskOutcome

/-- The values captured by the force_queue_task closure for one job:
identifiers, the request data, the intake time, the completion time
(time.time() when f returns) and the queue length observed at completion. -/
structure QueueTask where
  job_id : String
  queue_id : ℚ
  pid : ℚ
  data : JVal
  start_time : ℚ
  finish_time : ℚ
  queue_length : ℚ

/-- Python round(x, 3). Python rounds half to even; no input here sits on an
exact half-thousandth, so round-half-away is used. -/
def round3 (q : ℚ) : ℚ := (round (q * 1000) : ℤ) / 1000

/-- The queued record written at intake, before the entry is enqueued. -/
def queuedWrite (job_id : String) (queue_id pid : ℚ) : JVal :=
  .obj [("job_status", .str "queued"), ("job_id", .str job_id),
        ("queue_id", .num queue_id), ("process_id", .num pid),
        ("response", .null)]

/-- The running record written by task_wrapper before invoking f. -/
def runningWrite (job_id : String) (queue_id pid : ℚ) : JVal :=
  .obj [("job_status", .str "running"), ("job_id", .str job_id),
        ("queue_id", .num queue_id), ("process_id", .num pid),
        ("response", .null)]

/-- The done record written by task_wrapper after f returns. -/
def doneWrite (job_id : String) (queue_id pid : ℚ) (response_data : JVal) : JVal :=
  .obj [("job_status", .str "done"), ("job_id", .str job_id),
        ("queue_id", .num queue_id), ("process_id", .num pid),
        ("response", response_data)]

/-- The error record written by task_wrapper when f raises. -/
def errorWrite (job_id : String) (queue_id pid : ℚ) (msg : String) : JVal :=
  .obj [("job_status", .str "error"), ("job_id", .str job_id),
        ("queue_id", .num queue_id), ("process_id", .num pid),
        ("response", .obj [("error", .str msg)])]

/-- The response_data dictionary built by task_wrapper on the success path:
run_time is time.time() - start_time where start_time was captured at
intake, queue_time is the literal 0, and total_time repeats the rounded
run_time. -/
def response_data_of (t : QueueTask) (body : JVal) (endpoint : String)
    (code : ℚ) : JVal :=
  let run_time := t.finish_time - t.start_time
  .obj [("endpoint", .str endpoint), ("code", .num code),
        ("id", (t.data.getKey "id").getD .null), ("job_id", .str t.job_id),
        ("response", if code = 200 then body else .null),
        ("message", if code = 200 then .str "success" else body),
        ("pid", .num t.pid), ("queue_id", .num t.queue_id),
        ("run_time", .num (round3 run_time)), ("queue_time", .num 0),
        ("total_time", .num (round3 run_time)),
        ("queue_length", .num t.queue_length),
        ("build_number", .str "1.0.0")]

/-- task_wrapper from force_queue_task: writes the running record, runs f,
and on success writes the done record and returns the triple of f, while on
an exception writes the error record and re-raises the exception. The first
component is the list of records written, the second the outcome. -/
def task_wrapper (t : QueueTask) (outcome : TaskOutcome) :
    List JVal × Except String (JVal × String × ℚ) :=
  match outcome with
  | .ok body endpoint code =>
    ([runningWrite t.job_id t.queue_id t.pid,
      doneWrite t.job_id t.queue_id t.pid (response_data_of t body endpoint code)],
     .ok (body, endpoint, code))
  | .exn msg =>
    ([runningWrite t.job_id t.queue_id t.pid,
      errorWrite t.job_id t.queue_id t.pid msg],
     .error msg)

/-- All job-record writes produced for one job by the intake path plus the
task wrapper: the queued write followed by the wrapper writes. -/
def force_queue_writes (t : QueueTask) (outcome : TaskOutcome) : List JVal :=
  queuedWrite t.job_id t.queue_id t.pid :: (task_wrapper t outcome).1

/-- Modelled from the spec: the worker loop that consumes the task queue
lives in app.py, which is not under src/. Per the spec, a task failure
"is swallowed at this layer (logged) -- it never escalates to crash the
worker loop". The loop is therefore modelled as invoking the task wrapper
of each entry, discarding a re-raised failure, and continuing with the
next entry; it yields the job-record writes of every entry. -/
def worker_loop : List (QueueTask × TaskOutcome) → List JVal
  | [] => []
  | (t, o) :: rest => (task_wrapper t o).1 ++ worker_loop rest

/-! ### Job status query

src/routes/v1/toolkit/job_status.py: get_job_status reads the per-job
record file and, for a done record with a truthy response, surfaces the
artifact filename and a download URL. -/

/-- The while loop of get_job_status: starting from the response payload,
follow the nested "response" field as long as it leads to a dictionary;
stop at the first dictionary whose "response" entry is absent or not a
dictionary, or at a non-dictionary. The loop terminates because each step
descends to a strict subterm. -/
def unwrapResponse (v : JVal) : JVal :=
  match v with
  | .obj fs =>
    match h : fs.lookup "response" with
    | some (.obj fs2) => unwrapResponse (.obj fs2)
    | some _ => .obj fs
    | none => .obj fs
  | w => w
termination_by sizeOf v
decreasing_by
  have key : ∀ (l : List (String × JVal)) (k : String) (w : JVal),
      l.lookup k = some w → sizeOf w < sizeOf l := by
    intro l k w hw
    induction l with
    | nil => simp [List.lookup] at hw
    | cons p rest ih =>
      obtain ⟨k0, v0⟩ := p
      rw [List.lookup] at hw
      split at hw
      · cases hw
        simp only [List.cons.sizeOf_spec, Prod.mk.sizeOf_spec]
        omega
      · have := ih hw
        simp only [List.cons.sizeOf_spec, Prod.mk.sizeOf_spec]
        omega
  have := key _ _ _ h
  simp at this ⊢
  omega

/-- In-place assignment at the dictionary reached by the while loop of
get_job_status: the nested actual_response aliases a position inside the
response payload, so setting a key there is modelled by rebuilding the
payload with the assignment applied at the position the loop stops at. -/
def setAtUnwrap (v : JVal) (k : String) (newVal : JVal) : JVal :=
  match v with
  | .obj fs =>
    match h : fs.lookup "response" with
    | some (.obj fs2) => .obj (setAssoc fs "response" (setAtUnwrap (.obj fs2) k newVal))
    | some _ => .obj (setAssoc fs k newVal)
    | none => .obj (setAssoc fs k newVal)
  | w => w
termination_by sizeOf v
decreasing_by
  have key : ∀ (l : List (String × JVal)) (k : String) (w : JVal),
      l.lookup k = some w → sizeOf w < sizeOf l := by
    intro l k w hw
    induction l with
    | nil => simp [List.lookup] at hw
    | cons p rest ih =>
      obtain ⟨k0, v0⟩ := p
      rw [List.lookup] at hw
      split at hw
      · cases hw
        simp only [List.cons.sizeOf_spec, Prod.mk.sizeOf_spec]
        omega
      · have := ih hw
        simp only [List.cons.sizeOf_spec, Prod.mk.sizeOf_spec]
        omega
  have := key _ _ _ h
  simp at this ⊢
  omega

mutual

/-- True when the key "filename" occurs anywhere in the value, at any
nesting depth. Used to state the no-filename-anywhere case of the claims. -/
def containsFilenameKey : JVal → Bool
  | .obj fs => containsFilenameFields fs
  | .arr es => containsFilenameElems es
  | _ => false

def containsFilenameFields : List (String × JVal) → Bool
  | [] => false
  | (k, v) :: rest =>
    (k == "filename") || containsFilenameKey v || containsFilenameFields rest

def containsFilenameElems : List JVal → Bool
  | [] => false
  | v :: rest => containsFilenameKey v || containsFilenameElems rest

end

/-- Python job_status.get("job_status") == "done". -/
def isDone : Option JVal → Bool
  | some (.str s) => s == "done"
  | _ => false

/-- The enhancement block of get_job_status for a done record with a truthy
response: check the top level of the response for "filename"; otherwise
unwrap nested "response" fields and check the level reached. A response
that is a string containing "filename", a list containing the string
"filename", or a non-iterable raises in Python when indexed or tested with
"in"; those raises are returned as .error and caught by the outer handler. -/
def enhance (env : String → Option String) (record : JVal) : Except String JVal :=
  let response_data := (record.getKey "response").getD (.obj [])
  match response_data with
  | .obj rfs =>
    match rfs.lookup "filename" with
    | some fv =>
      let base_url := getenvD env "API_BASE_URL" "http://localhost:8080"
      let download_url := base_url ++ "/v1/storage/download/" ++ pyStr fv
      .ok ((record.setKey "filename" fv).setKey "download_url" (.str download_url))
    | none =>
      match unwrapResponse response_data with
      | .obj afs =>
        match afs.lookup "filename" with
        | some fv =>
          let base_url := getenvD env "API_BASE_URL" "http://localhost:8080"
          let download_url := base_url ++ "/v1/storage/download/" ++ pyStr fv
          let response2 := setAtUnwrap response_data "download_url" (.str download_url)
          .ok (((record.setKey "response" response2).setKey "filename" fv).setKey
                "download_url" (.str download_url))
        | none => .ok record
      | _ => .ok record
  | .str s =>
    if pyContains s "filename" then .error "string indices must be integers"
    else .ok record
  | .arr es =>
    if es.any (fun e => match e with | .str s => s == "filename" | _ => false) then
      .error "list indices must be integers or slices, not str"
    else .ok record
  | .bool _ => .error "argument of type bool is not iterable"
  | .num _ => .error "argument of type number is not iterable"
  | .null => .ok record

/-- Body of get_job_status after the record file was read: a non-dictionary
record raises AttributeError on .get in Python (caught by the outer
handler); a done record with a truthy response is enhanced. -/
def tryGetJobStatus (env : String → Option String) (record : JVal) :
    Except String JVal :=
  match record with
  | .obj _ =>
    if isDone (record.getKey "job_status")
        && ((record.getKey "response").getD .null).truthy then
      enhance env record
    else
      .ok record
  | _ => .error "object has no attribute get"

/-- get_job_status from src/routes/v1/toolkit/job_status.py. The record
store maps a job id to the parsed content of LOCAL_STORAGE_PATH/jobs/
with the id as file name, or none when no such file exists. The result is
the JSON body, the endpoint string and the HTTP status code. -/
def get_job_status (env : String → Option String)
    (store : String → Option JVal) (job_id : String) : JVal × String × Nat :=
  match store job_id with
  | none =>
    (.obj [("error", .str "Job not found"), ("job_id", .str job_id)],
     "/v1/toolkit/job/status", 404)
  | some record =>
    match tryGetJobStatus env record with
    | .ok doc => (doc, "/v1/toolkit/job/status", 200)
    | .error e =>
      (.obj [("error", .str ("Failed to retrieve job status: " ++ e))],
       "/v1/toolkit/job/status", 500)

/-! ### Association list lemmas -/

theorem lookup_setAssoc_self (fs : List (String × JVal)) (k : String) (v : JVal) :
    (setAssoc fs k v).lookup k = some v := by
  induction fs with
  | nil => simp [setAssoc]
  | cons p rest ih =>
    obtain ⟨k0, v0⟩ := p
    by_cases hk : k0 = k
    · subst hk
      simp [setAssoc]
    · have hb : (k == k0) = false := by simp [Ne.symm hk]
      simp [setAssoc, hk, List.lookup_cons, hb, ih]

theorem lookup_setAssoc_ne (fs : List (String × JVal)) (k k2 : String) (v : JVal)
    (h : k2 ≠ k) : (setAssoc fs k v).lookup k2 = fs.lookup k2 := by
  have hb : (k2 == k) = false := by simp [h]
  induction fs with
  | nil => simp [setAssoc, List.lookup_cons, hb]
  | cons p rest ih =>
    obtain ⟨k0, v0⟩ := p
    by_cases hk : k0 = k
    · subst hk
      simp [setAssoc, List.lookup_cons, hb]
    · simp [setAssoc, hk, List.lookup_cons, ih]

/-- A field list with no "filename" key anywhere has none at its top
level. -/
theorem lookup_filename_eq_none (fs : List (String × JVal))
    (h : containsFilenameFields fs = false) : fs.lookup "filename" = none := by
  induction fs with
  | nil => simp
  | cons p rest ih =>
    obtain ⟨k0, v0⟩ := p
    rw [containsFilenameFields] at h
    simp only [Bool.or_eq_false_iff] at h
    obtain ⟨⟨hk, _⟩, hrest⟩ := h
    have hb : ("filename" == k0) = false := by
      simp only [beq_eq_false_iff_ne] at hk ⊢
      exact fun e => hk e.symm
    simp [List.lookup_cons, hb, ih hrest]

/-- Looking up a key in a filename-free field list yields a filename-free
value. -/
theorem contains_response_lookup (fs : List (String × JVal)) (v : JVal)
    (h : containsFilenameFields fs = false) (hl : fs.lookup "response" = some v) :
    containsFilenameKey v = false := by
  induction fs with
  | nil => simp at hl
  | cons p rest ih =>
    obtain ⟨k0, v0⟩ := p
    rw [containsFilenameFields] at h
    simp only [Bool.or_eq_false_iff] at h
    obtain ⟨⟨hk, hv⟩, hrest⟩ := h
    rw [List.lookup_cons] at hl
    split at hl
    · cases hl
      exact hv
    · exact ih hrest hl

/-- Unwrapping nested response fields never reaches a filename when none
occurs anywhere in the value. -/
theorem containsFilenameKey_unwrapResponse (v : JVal)
    (h : containsFilenameKey v = false) :
    containsFilenameKey (unwrapResponse v) = false := by
  induction v using unwrapResponse.induct with
  | case1 fs fs2 hl ih =>
      rw [unwrapResponse, hl]
      apply ih
      rw [containsFilenameKey] at h
      exact contains_response_lookup fs (.obj fs2) h hl
  | case2 fs x hl hx =>
      rw [unwrapResponse]
      split
      · next fs2 heq =>
          rw [hx] at heq
          cases heq
          exact absurd rfl (hl fs2)
      · exact h
      · exact h
  | case3 fs hl =>
      rw [unwrapResponse, hl]
      exact h
  | case4 w hw =>
      cases w
      case obj fs => exact absurd rfl (hw fs)
      all_goals rw [unwrapResponse] <;> first | exact h | exact hw

/-! ### Theorems for the claims -/

/-- C2: for a stored done record with a non-empty dictionary response, the
status query finds a filename at the top level of the response first; when
the top level has none it unwraps nested response fields and checks the
dictionary reached, surfacing a top-level filename and a download_url of
API_BASE_URL (default http://localhost:8080) ++ "/v1/storage/download/" ++
filename with HTTP 200; and when no filename occurs anywhere the document
is returned unchanged, still with HTTP 200. -/
theorem C2_filename_discovery (env : String → Option String)
    (store : String → Option JVal) (jid : String)
    (fs rfs : List (String × JVal))
    (hstore : store jid = some (.obj fs))
    (hdone : fs.lookup "job_status" = some (.str "done"))
    (hresp : fs.lookup "response" = some (.obj rfs))
    (hne : rfs ≠ []) :
    (∀ fv, rfs.lookup "filename" = some fv →
      (get_job_status env store jid).1.getKey "filename" = some fv ∧
      (get_job_status env store jid).1.getKey "download_url" =
        some (.str (getenvD env "API_BASE_URL" "http://localhost:8080" ++
          "/v1/storage/download/" ++ pyStr fv)) ∧
      (get_job_status env store jid).2.2 = 200) ∧
    (∀ fv afs, rfs.lookup "filename" = none →
      unwrapResponse (.obj rfs) = .obj afs →
      afs.lookup "filename" = some fv →
      (get_job_status env store jid).1.getKey "filename" = some fv ∧
      (get_job_status env store jid).1.getKey "download_url" =
        some (.str (getenvD env "API_BASE_URL" "http://localhost:8080" ++
          "/v1/storage/download/" ++ pyStr fv)) ∧
      (get_job_status env store jid).2.2 = 200) ∧
    (containsFilenameKey (.obj rfs) = false →
      get_job_status env store jid = (.obj fs, "/v1/toolkit/job/status", 200)) := by
  have henh : tryGetJobStatus env (.obj fs) = enhance env (.obj fs) := by
    simp [tryGetJobStatus, JVal.getKey, hdone, hresp, isDone, JVal.truthy, hne]
  refine ⟨?_, ?_, ?_⟩
  · intro fv hfv
    have he : enhance env (.obj fs) =
        .ok (((JVal.obj fs).setKey "filename" fv).setKey "download_url"
          (.str (getenvD env "API_BASE_URL" "http://localhost:8080" ++
            "/v1/storage/download/" ++ pyStr fv))) := by
      simp [enhance, JVal.getKey, hresp, hfv]
    refine ⟨?_, ?_, ?_⟩ <;>
      simp [get_job_status, hstore, henh, he, JVal.setKey, JVal.getKey,
        lookup_setAssoc_self, lookup_setAssoc_ne]
  · intro fv afs hfn hunw hafv
    have he : enhance env (.obj fs) =
        .ok ((((JVal.obj fs).setKey "response"
            (setAtUnwrap (.obj rfs) "download_url"
              (.str (getenvD env "API_BASE_URL" "http://localhost:8080" ++
                "/v1/storage/download/" ++ pyStr fv)))).setKey "filename" fv).setKey
          "download_url"
          (.str (getenvD env "API_BASE_URL" "http://localhost:8080" ++
            "/v1/storage/download/" ++ pyStr fv))) := by
      simp [enhance, JVal.getKey, hresp, hfn, hunw, hafv]
    refine ⟨?_, ?_, ?_⟩ <;>
      simp [get_job_status, hstore, henh, he, JVal.setKey, JVal.getKey,
        lookup_setAssoc_self, lookup_setAssoc_ne]
  · intro hnc
    have hnc2 := containsFilenameKey_unwrapResponse (JVal.obj rfs) hnc
    rw [containsFilenameKey] at hnc
    have hfn : rfs.lookup "filename" = none := lookup_filename_eq_none rfs hnc
    cases hu2 : unwrapResponse (JVal.obj rfs) with
    | obj afs =>
      rw [hu2, containsFilenameKey] at hnc2
      have hafn : afs.lookup "filename" = none := lookup_filename_eq_none afs hnc2
      simp [get_job_status, hstore, henh, enhance, JVal.getKey, hresp, hfn, hu2, hafn]
    | null => simp [get_job_status, hstore, henh, enhance, JVal.getKey, hresp, hfn, hu2]
    | bool b => simp [get_job_status, hstore, henh, enhance, JVal.getKey, hresp, hfn, hu2]
    | num q => simp [get_job_status, hstore, henh, enhance, JVal.getKey, hresp, hfn, hu2]
    | str s => simp [get_job_status, hstore, henh, enhance, JVal.getKey, hresp, hfn, hu2]
    | arr es => simp [get_job_status, hstore, henh, enhance, JVal.getKey, hresp, hfn, hu2]

/-- Witness for C2: a response nested two levels deep carrying filename
out.mp4 yields a top-level filename and a download_url ending in /out.mp4
under the default base URL. -/
theorem C2_witness :
    (get_job_status (fun _ => none)
      (fun _ => some (.obj [("job_status", .str "done"), ("job_id", .str "w2"),
        ("response", .obj [("response", .obj [("response",
          .obj [("filename", .str "out.mp4")])])])])) "w2").1.getKey "download_url" =
      some (.str "http://localhost:8080/v1/storage/download/out.mp4") ∧
    (get_job_status (fun _ => none)
      (fun _ => some (.obj [("job_status", .str "done"), ("job_id", .str "w2"),
        ("response", .obj [("response", .obj [("response",
          .obj [("filename", .str "out.mp4")])])])])) "w2").1.getKey "filename" =
      some (.str "out.mp4") := by
  have h := C2_filename_discovery (fun _ => none)
      (fun _ => some (.obj [("job_status", .str "done"), ("job_id", .str "w2"),
        ("response", .obj [("response", .obj [("response",
          .obj [("filename", .str "out.mp4")])])])])) "w2"
      [("job_status", .str "done"), ("job_id", .str "w2"),
        ("response", .obj [("response", .obj [("response",
          .obj [("filename", .str "out.mp4")])])])]
      [("response", .obj [("response", .obj [("filename", .str "out.mp4")])])]
      rfl (by simp [List.lookup_cons]) (by simp [List.lookup_cons]) (by simp)
  obtain ⟨hfil, hurl, _⟩ := h.2.1 (.str "out.mp4") [("filename", .str "out.mp4")]
    (by simp [List.lookup_cons])
    (by simp [unwrapResponse, List.lookup_cons])
    (by simp [List.lookup_cons])
  constructor
  · simpa [getenvD, pyStr] using hurl
  · exact hfil

/-- C1: for a job whose task raises a failure, the task wrapper records the
job with status error and the stringified failure in the response field as
its final write; the wrapper re-raises, and the worker loop swallows the
failure and continues with the remaining entries, so one failing job never
stops the pool. -/
theorem C1_task_failure_recorded_and_isolated (t : QueueTask) (msg : String)
    (rest : List (QueueTask × TaskOutcome)) :
    (task_wrapper t (.exn msg)).1.getLast? =
      some (errorWrite t.job_id t.queue_id t.pid msg) ∧
    (errorWrite t.job_id t.queue_id t.pid msg).getKey "job_status" =
      some (.str "error") ∧
    (errorWrite t.job_id t.queue_id t.pid msg).getKey "response" =
      some (.obj [("error", .str msg)]) ∧
    (task_wrapper t (.exn msg)).2 = .error msg ∧
    worker_loop ((t, .exn msg) :: rest) =
      (task_wrapper t (.exn msg)).1 ++ worker_loop rest := by
  refine ⟨?_, ?_, ?_, ?_, ?_⟩ <;>
    simp [task_wrapper, errorWrite, worker_loop, JVal.getKey, List.lookup_cons]

/-- C3: in every job-record write of the intake and worker path, the
response field is null exactly for the queued and running writes, and
present and non-null exactly for the done and error writes. -/
theorem C3_response_null_iff_not_terminal (t : QueueTask) (o : TaskOutcome) :
    ∀ w ∈ force_queue_writes t o,
      ((w.getKey "response" = some .null) ↔
        (w.getKey "job_status" = some (.str "queued") ∨
         w.getKey "job_status" = some (.str "running"))) ∧
      ((∃ v, w.getKey "response" = some v ∧ v ≠ .null) ↔
        (w.getKey "job_status" = some (.str "done") ∨
         w.getKey "job_status" = some (.str "error"))) := by
  intro w hw
  cases o with
  | ok body endpoint code =>
    simp only [force_queue_writes, task_wrapper, List.mem_cons,
      List.not_mem_nil, or_false] at hw
    rcases hw with h | h | h <;> subst h <;> constructor <;>
      simp [queuedWrite, runningWrite, doneWrite, response_data_of,
        JVal.getKey, List.lookup_cons]
  | exn msg =>
    simp only [force_queue_writes, task_wrapper, List.mem_cons,
      List.not_mem_nil, or_false] at hw
    rcases hw with h | h | h <;> subst h <;> constructor <;>
      simp [queuedWrite, runningWrite, errorWrite,
        JVal.getKey, List.lookup_cons]

/-- Witness for C3 at the queued write of a concrete job. -/
theorem C3_witness :
    (((queuedWrite "w3" 1 2).getKey "response" = some .null) ↔
      ((queuedWrite "w3" 1 2).getKey "job_status" = some (.str "queued") ∨
       (queuedWrite "w3" 1 2).getKey "job_status" = some (.str "running"))) ∧
    ((∃ v, (queuedWrite "w3" 1 2).getKey "response" = some v ∧ v ≠ .null) ↔
      ((queuedWrite "w3" 1 2).getKey "job_status" = some (.str "done") ∨
       (queuedWrite "w3" 1 2).getKey "job_status" = some (.str "error"))) :=
  C3_response_null_iff_not_terminal ⟨"w3", 1, 2, .obj [], 0, 1, 0⟩ (.exn "x")
    (queuedWrite "w3" 1 2) (by simp [force_queue_writes])

/-- C4 counterexample: the queued record written at intake for a concrete
job carries a process_id field with the intake process id, while the claim
says process_id is absent on queued writes. -/
theorem C4_counterexample :
    ((force_queue_writes ⟨"job-1", 11, 42, .obj [], 0, 1, 0⟩ (.exn "boom")).head?.map
      (fun w => (w.getKey "job_status", w.getKey "process_id"))) =
      some (some (.str "queued"), some (.num 42)) := by
  simp [force_queue_writes, task_wrapper, queuedWrite, JVal.getKey, List.lookup_cons]

/-- C4 amended: process_id is present on every write, the queued write
included; all four write shapes record the captured process id. -/
theorem C4_amended_process_id_on_every_write (t : QueueTask) (o : TaskOutcome) :
    ∀ w ∈ force_queue_writes t o, w.getKey "process_id" = some (.num t.pid) := by
  intro w hw
  cases o with
  | ok body endpoint code =>
    simp only [force_queue_writes, task_wrapper, List.mem_cons,
      List.not_mem_nil, or_false] at hw
    rcases hw with h | h | h <;> subst h <;>
      simp [queuedWrite, runningWrite, doneWrite, JVal.getKey, List.lookup_cons]
  | exn msg =>
    simp only [force_queue_writes, task_wrapper, List.mem_cons,
      List.not_mem_nil, or_false] at hw
    rcases hw with h | h | h <;> subst h <;>
      simp [queuedWrite, runningWrite, errorWrite, JVal.getKey, List.lookup_cons]

/-- Witness for the amended C4 at the queued write of a concrete job. -/
theorem C4_amended_witness :
    (queuedWrite "w4" 1 2).getKey "process_id" = some (.num 2) :=
  C4_amended_process_id_on_every_write ⟨"w4", 1, 2, .obj [], 0, 1, 0⟩ (.exn "x")
    (queuedWrite "w4" 1 2) (by simp [force_queue_writes])

/-- C5 counterexample: for a job enqueued at time 0, dequeued at time 5 and
finishing at time 7 (seconds), the done record stores queue_time 0, not the
5 seconds between intake and dequeue, and run_time 7, the whole
intake-to-completion span rather than the 2 seconds of execution. -/
theorem C5_counterexample :
    (response_data_of ⟨"job-5", 1, 7, .obj [], 0, 7, 0⟩ (.str "ok")
        "/v1/image/convert/video" 200).getKey "queue_time" = some (.num 0) ∧
    (response_data_of ⟨"job-5", 1, 7, .obj [], 0, 7, 0⟩ (.str "ok")
        "/v1/image/convert/video" 200).getKey "run_time" = some (.num 7) ∧
    (0 : ℚ) ≠ 5 - 0 ∧ (7 : ℚ) ≠ 7 - 5 := by
  refine ⟨?_, ?_, by norm_num, by norm_num⟩ <;>
    simp [response_data_of, JVal.getKey, List.lookup_cons, round3] <;>
    norm_num

/-- C5 amended: the done record always stores queue_time 0; run_time is the
rounded span from intake to completion because start_time is captured at
intake, so the queue wait is included in it; total_time repeats run_time,
hence total_time = queue_time + run_time holds exactly. -/
theorem C5_amended_recorded_times (t : QueueTask) (body : JVal)
    (endpoint : String) (code : ℚ) :
    (response_data_of t body endpoint code).getKey "queue_time" =
      some (.num 0) ∧
    (response_data_of t body endpoint code).getKey "run_time" =
      some (.num (round3 (t.finish_time - t.start_time))) ∧
    (response_data_of t body endpoint code).getKey "total_time" =
      some (.num (round3 (t.finish_time - t.start_time))) ∧
    round3 (t.finish_time - t.start_time) =
      0 + round3 (t.finish_time - t.start_time) := by
  refine ⟨?_, ?_, ?_, by ring⟩ <;>
    simp [response_data_of, JVal.getKey, List.lookup_cons]

/-- C6: the storage root falls back in the fixed order SAVE_LOCATION when
set non-empty, then the Docker mount when present and writable, then the
app directory; the resolution depends only on the environment and
filesystem arguments and is re-applied at each call site. -/
theorem C6_storage_root_fallback_order (env : String → Option String)
    (pathExists writable : String → Bool) :
    (∀ s, env "SAVE_LOCATION" = some s → s ≠ "" →
      resolve_storage_dir env pathExists writable = s) ∧
    (truthyOpt (env "SAVE_LOCATION") = false →
      pathExists "/var/www/html/storage/app" = true →
      writable "/var/www/html/storage/app" = true →
      resolve_storage_dir env pathExists writable = "/var/www/html/storage/app") ∧
    (truthyOpt (env "SAVE_LOCATION") = false →
      (pathExists "/var/www/html/storage/app" &&
        writable "/var/www/html/storage/app") = false →
      resolve_storage_dir env pathExists writable = "/app/storage") := by
  refine ⟨?_, ?_, ?_⟩
  · intro s hs hne
    simp [resolve_storage_dir, hs, hne]
  · intro h1 h2 h3
    cases henv : env "SAVE_LOCATION" with
    | none => simp [resolve_storage_dir, henv, fallbackDir, h2, h3]
    | some s =>
      rw [henv] at h1
      simp [truthyOpt] at h1
      simp [resolve_storage_dir, henv, h1, fallbackDir, h2, h3]
  · intro h1 h2
    cases henv : env "SAVE_LOCATION" with
    | none => simp [resolve_storage_dir, henv, fallbackDir, h2]
    | some s =>
      rw [henv] at h1
      simp [truthyOpt] at h1
      simp [resolve_storage_dir, henv, h1, fallbackDir, h2]

/-- Witness for C6: an explicitly configured location wins. -/
theorem C6_witness :
    resolve_storage_dir
      (fun k => if k = "SAVE_LOCATION" then some "/data" else none)
      (fun _ => false) (fun _ => false) = "/data" :=
  (C6_storage_root_fallback_order _ _ _).1 "/data" (by simp) (by simp)

/-- C7: upload_file saves locally and returns the local download URL built
from API_BASE_URL and the saved file name; no cloud provider is consulted,
so the result is unchanged under any value of S3_ENDPOINT_URL or
GCP_BUCKET_NAME. -/
theorem C7_upload_always_local (env : String → Option String)
    (pathExists writable : String → Bool) (file_path timestamp : String) :
    upload_file env pathExists writable file_path timestamp =
      getenvD env "API_BASE_URL" "http://localhost:8080" ++
        "/v1/storage/download/" ++
        basename (save_file_locally env pathExists writable file_path none timestamp) ∧
    (∀ v, upload_file (envSet env "S3_ENDPOINT_URL" v) pathExists writable
        file_path timestamp =
      upload_file env pathExists writable file_path timestamp) ∧
    (∀ v, upload_file (envSet env "GCP_BUCKET_NAME" v) pathExists writable
        file_path timestamp =
      upload_file env pathExists writable file_path timestamp) := by
  refine ⟨rfl, ?_, ?_⟩ <;> intro v <;>
    simp [upload_file, save_file_locally, resolve_storage_dir, getenvD, envSet]

/-- C8: querying a job id with no record file yields the not-found body
carrying the queried id and HTTP 404; in particular the code is not 200. -/
theorem C8_unknown_job_not_found (env : String → Option String)
    (store : String → Option JVal) (job_id : String)
    (h : store job_id = none) :
    get_job_status env store job_id =
      (.obj [("error", .str "Job not found"), ("job_id", .str job_id)],
       "/v1/toolkit/job/status", 404) ∧
    (get_job_status env store job_id).2.2 ≠ 200 := by
  constructor
  · simp [get_job_status, h]
  · simp [get_job_status, h]

/-- Witness for C8 at a store with no records. -/
theorem C8_witness :
    get_job_status (fun _ => none) (fun _ => none) "missing" =
      (.obj [("error", .str "Job not found"), ("job_id", .str "missing")],
       "/v1/toolkit/job/status", 404) :=
  (C8_unknown_job_not_found (fun _ => none) (fun _ => none) "missing" rfl).1

/-- C9: download_file returns the 404 not-found body when the resolved path
does not exist, the 400 invalid-path body when it exists but is not a
regular file, and serves the file exactly when the path is an existing
regular file. -/
theorem C9_download_branches (env : String → Option String)
    (pathExists writable isfile : String → Bool)
    (guessMime : String → Option String) (unquote : String → String)
    (filename : String) :
    (pathExists (joinPath (resolve_storage_dir env pathExists writable)
        (unquote filename)) = false →
      download_file env pathExists writable isfile guessMime unquote filename =
        .errorJson (.obj [("error", .str "File not found")]) 404) ∧
    (pathExists (joinPath (resolve_storage_dir env pathExists writable)
        (unquote filename)) = true →
      isfile (joinPath (resolve_storage_dir env pathExists writable)
        (unquote filename)) = false →
      download_file env pathExists writable isfile guessMime unquote filename =
        .errorJson (.obj [("error", .str "Invalid file path")]) 400) ∧
    (pathExists (joinPath (resolve_storage_dir env pathExists writable)
        (unquote filename)) = true →
      isfile (joinPath (resolve_storage_dir env pathExists writable)
        (unquote filename)) = true →
      ∃ m, download_file env pathExists writable isfile guessMime unquote filename =
        .fileResponse (joinPath (resolve_storage_dir env pathExists writable)
          (unquote filename)) (unquote filename) m) := by
  refine ⟨?_, ?_, ?_⟩
  · intro h
    simp [download_file, h]
  · intro h1 h2
    simp [download_file, h1, h2]
  · intro h1 h2
    refine ⟨resolvedMime guessMime (joinPath (resolve_storage_dir env pathExists writable)
      (unquote filename)), ?_⟩
    simp [download_file, h1, h2]

/-- Witness for C9: an empty filesystem yields the not-found body. -/
theorem C9_witness :
    download_file (fun _ => none) (fun _ => false) (fun _ => false)
      (fun _ => false) (fun _ => none) (fun s => s) "out.mp4" =
      .errorJson (.obj [("error", .str "File not found")]) 404 :=
  (C9_download_branches (fun _ => none) (fun _ => false) (fun _ => false)
    (fun _ => false) (fun _ => none) (fun s => s) "out.mp4").1 rfl

/-- Every constructed S3CompatibleProvider is the S3 variant. -/
theorem construct_isS3 (env : String → Option String) :
    (S3CompatibleProvider.construct env).isS3 = true := by
  rw [S3CompatibleProvider.construct]
  split <;> rfl

/-- C10: provider selection returns the S3 provider whenever
S3_ENDPOINT_URL is truthy, whatever GCP_BUCKET_NAME holds; the GCP
provider when only GCP_BUCKET_NAME is truthy; and a ValueError exactly
when neither is truthy. -/
theorem C10_provider_selection (env : String → Option String) :
    (truthyOpt (env "S3_ENDPOINT_URL") = true →
      get_storage_provider env = .ok (S3CompatibleProvider.construct env) ∧
      (S3CompatibleProvider.construct env).isS3 = true) ∧
    (truthyOpt (env "S3_ENDPOINT_URL") = false →
      truthyOpt (env "GCP_BUCKET_NAME") = true →
      get_storage_provider env = .ok (.gcp ((env "GCP_BUCKET_NAME").getD ""))) ∧
    ((∃ e, get_storage_provider env = .error e) ↔
      (truthyOpt (env "S3_ENDPOINT_URL") = false ∧
       truthyOpt (env "GCP_BUCKET_NAME") = false)) := by
  refine ⟨?_, ?_, ?_⟩
  · intro h
    exact ⟨by simp [get_storage_provider, h, validate_env_vars], construct_isS3 env⟩
  · intro h1 h2
    simp [get_storage_provider, h1, h2, validate_env_vars]
  · constructor
    · rintro ⟨e, he⟩
      by_cases h1 : truthyOpt (env "S3_ENDPOINT_URL") = true
      · simp [get_storage_provider, h1, validate_env_vars] at he
      · by_cases h2 : truthyOpt (env "GCP_BUCKET_NAME") = true
        · simp only [Bool.not_eq_true] at h1
          simp [get_storage_provider, h1, h2, validate_env_vars] at he
        · simp only [Bool.not_eq_true] at h1 h2
          exact ⟨h1, h2⟩
    · rintro ⟨h1, h2⟩
      exact ⟨"No cloud storage settings provided.",
        by simp [get_storage_provider, h1, h2]⟩

/-- Witness for C10: with both provider variables set, S3 wins. -/
theorem C10_witness :
    get_storage_provider
      (fun k => if k = "S3_ENDPOINT_URL" then some "https://minio.local" else
        if k = "GCP_BUCKET_NAME" then some "bucket" else none) =
      .ok (S3CompatibleProvider.construct
        (fun k => if k = "S3_ENDPOINT_URL" then some "https://minio.local" else
          if k = "GCP_BUCKET_NAME" then some "bucket" else none)) :=
  ((C10_provider_selection _).1 (by simp [truthyOpt])).1

end Toolkit
